import Mathlib

/-!
Shallow embedding of the `GeneMarketFHE` Solidity contract
(`contracts/Gene_Market.sol`): an access-controlled, rate-limited,
batch-oriented encrypted-aggregation protocol with an asynchronous
decryption callback.

Modelling conventions:
* Addresses, timestamps, batch ids, request ids and opaque byte payloads
  (`cleartexts`, `proof`) are `Nat`.
* `euint32` ciphertext handles are symbolic: externally supplied handles,
  the canonical trivial encryption of zero (`FHE.asEuint32(0)`), and
  results of the engine's deterministic homomorphic add (`FHE.add`).
* `keccak256(abi.encode(cts, address(this)))` is modelled as a
  collision-free constructor (idealized hash), distinct from the default
  `bytes32(0)` stored in an untouched mapping slot.
* Every external function is a total function
  `state → args → Except Err state`: `Except.error e` models a Solidity
  `revert`, which rolls back all writes, so an error outcome leaves the
  ledger at the pre-call state.
* The engine's asynchronous request-id allocation is modelled by passing
  the fresh `requestId` as an argument to `requestResearchCalculation`;
  `block.timestamp` is passed as the argument `now`.
-/

namespace GeneMarketFHE

/-- Symbolic `euint32` ciphertext handles of the confidential-computing
engine: an externally supplied handle, the canonical trivial encryption of
zero produced by `FHE.asEuint32(0)`, and the deterministic result of the
homomorphic addition `FHE.add`. -/
inductive Handle where
  | input (n : Nat) : Handle
  | encZero : Handle
  | add (a b : Handle) : Handle
deriving DecidableEq

/-- Result of `FHE.toBytes32` on a handle (a `bytes32` naming a ciphertext). -/
inductive HB32 where
  | ofHandle (h : Handle) : HB32
deriving DecidableEq

/-- The `bytes32` values stored in `DecryptionContext.stateHash`: either the
default `bytes32(0)` of an untouched storage slot, or
`keccak256(abi.encode(cts, address(this)))` for a list of ciphertext
bytes (the contract address is fixed, so it is left implicit). The hash is
modelled as collision-free and never equal to the zero word. -/
inductive B32 where
  | zero : B32
  | keccakCts (cts : List HB32) : B32
deriving DecidableEq

/-- FHE.toBytes32. -/
def toBytes32 (h : Handle) : HB32 := HB32.ofHandle h

/-- The contract's `_hashCiphertexts`:
`keccak256(abi.encode(cts, address(this)))`. -/
def hashCiphertexts (cts : List HB32) : B32 := B32.keccakCts cts

/-- External confidential-computing engine, as far as the contract observes
it: which externally supplied handles are valid initialized ciphertexts
(`FHE.isInitialized`), signature/proof verification for decryption results
(`FHE.checkSignatures`), and decoding of the cleartext payload
(`abi.decode(cleartexts, (uint256))`). -/
structure Env where
  inited : Nat → Bool
  checkSig : Nat → Nat → Nat → Bool
  decode : Nat → Nat

/-- FHE.isInitialized: engine-produced handles are initialized; externally
supplied handles are initialized as the engine says. -/
def isInitialized (env : Env) : Handle → Bool
  | Handle.input n => env.inited n
  | Handle.encZero => true
  | Handle.add _ _ => true

/-- The contract's `_initIfNeeded`: replace a handle the engine does not
recognize as an initialized ciphertext by the canonical encrypted zero. -/
def initIfNeeded (env : Env) (val : Handle) : Handle :=
  if isInitialized env val then val else Handle.encZero

/-- Storage struct `DecryptionContext`. -/
structure DecryptionContext where
  batchId : Nat
  stateHash : B32
  processed : Bool
deriving DecidableEq

/-- The contract's storage. Solidity mappings are total functions with the
type's default value on untouched keys. -/
structure GMState where
  owner : Nat
  isProvider : Nat → Bool
  paused : Bool
  cooldownSeconds : Nat
  lastSubmissionTime : Nat → Nat
  lastDecryptionRequestTime : Nat → Nat
  currentBatchId : Nat
  isBatchOpen : Nat → Bool
  batchSubmissionCount : Nat → Nat
  batchGeneticData : Nat → Nat → List Handle
  decryptionContexts : Nat → DecryptionContext

/-- The contract's custom errors. -/
inductive Err where
  | NotOwner | NotProvider | Paused | CooldownActive | BatchClosed
  | InvalidBatch | ReplayAttempt | StateMismatch | InvalidProof
  | AlreadyProcessed | EmptyBatch | InvalidCooldown
deriving DecidableEq

/-- The constructor: deployer becomes owner and the first provider, default
cooldown of 60 seconds, every mapping at its default. -/
def initialState (deployer : Nat) : GMState where
  owner := deployer
  isProvider := fun a => a == deployer
  paused := false
  cooldownSeconds := 60
  lastSubmissionTime := fun _ => 0
  lastDecryptionRequestTime := fun _ => 0
  currentBatchId := 0
  isBatchOpen := fun _ => false
  batchSubmissionCount := fun _ => 0
  batchGeneticData := fun _ _ => []
  decryptionContexts := fun _ => { batchId := 0, stateHash := B32.zero, processed := false }

/-- transferOwnership (onlyOwner). -/
def transferOwnership (s : GMState) (caller newOwner : Nat) : Except Err GMState :=
  if caller ≠ s.owner then .error .NotOwner
  else .ok { s with owner := newOwner }

/-- addProvider (onlyOwner, idempotent no-op when already a provider). -/
def addProvider (s : GMState) (caller provider : Nat) : Except Err GMState :=
  if caller ≠ s.owner then .error .NotOwner
  else if s.isProvider provider then .ok s
  else .ok { s with isProvider := fun a => if a = provider then true else s.isProvider a }

/-- removeProvider (onlyOwner, idempotent no-op when not a provider). -/
def removeProvider (s : GMState) (caller provider : Nat) : Except Err GMState :=
  if caller ≠ s.owner then .error .NotOwner
  else if s.isProvider provider then
    .ok { s with isProvider := fun a => if a = provider then false else s.isProvider a }
  else .ok s

/-- pause (onlyOwner whenNotPaused). -/
def pause (s : GMState) (caller : Nat) : Except Err GMState :=
  if caller ≠ s.owner then .error .NotOwner
  else if s.paused then .error .Paused
  else .ok { s with paused := true }

/-- unpause (onlyOwner). -/
def unpause (s : GMState) (caller : Nat) : Except Err GMState :=
  if caller ≠ s.owner then .error .NotOwner
  else .ok { s with paused := false }

/-- setCooldownSeconds (onlyOwner, zero value rejected). -/
def setCooldownSeconds (s : GMState) (caller newCooldownSeconds : Nat) : Except Err GMState :=
  if caller ≠ s.owner then .error .NotOwner
  else if newCooldownSeconds = 0 then .error .InvalidCooldown
  else .ok { s with cooldownSeconds := newCooldownSeconds }

/-- openBatch (onlyOwner whenNotPaused): allocates the next id, marks it
open, zeroes its counter. -/
def openBatch (s : GMState) (caller : Nat) : Except Err GMState :=
  if caller ≠ s.owner then .error .NotOwner
  else if s.paused then .error .Paused
  else
    let b := s.currentBatchId + 1
    .ok { s with
      currentBatchId := b
      isBatchOpen := fun i => if i = b then true else s.isBatchOpen i
      batchSubmissionCount := fun i => if i = b then 0 else s.batchSubmissionCount i }

/-- closeBatch (onlyOwner whenNotPaused; fails when not currently open). -/
def closeBatch (s : GMState) (caller batchId : Nat) : Except Err GMState :=
  if caller ≠ s.owner then .error .NotOwner
  else if s.paused then .error .Paused
  else if s.isBatchOpen batchId = false then .error .BatchClosed
  else .ok { s with isBatchOpen := fun i => if i = batchId then false else s.isBatchOpen i }

/-- submitEncryptedGeneticData: modifiers onlyProvider, whenNotPaused,
respectSubmissionCooldown run in that order, then the batch-open and
non-empty checks; on success the timestamp is set to now, the normalized
list fully replaces the previous one and the counter is incremented. -/
def submitEncryptedGeneticData (env : Env) (s : GMState) (caller now batchId : Nat)
    (dataPoints : List Handle) : Except Err GMState :=
  if s.isProvider caller = false then .error .NotProvider
  else if s.paused = true then .error .Paused
  else if now < s.lastSubmissionTime caller + s.cooldownSeconds then .error .CooldownActive
  else if s.isBatchOpen batchId = false then .error .BatchClosed
  else if dataPoints.length = 0 then .error .EmptyBatch
  else
    .ok { s with
      lastSubmissionTime := fun a => if a = caller then now else s.lastSubmissionTime a
      batchGeneticData := fun b p =>
        if b = batchId then
          (if p = caller then dataPoints.map (initIfNeeded env) else s.batchGeneticData b p)
        else s.batchGeneticData b p
      batchSubmissionCount := fun b =>
        if b = batchId then s.batchSubmissionCount b + 1 else s.batchSubmissionCount b }

/-- The encrypted-sum loop shared by `requestResearchCalculation` and
`_reconstructAndHashCleartextsForCallback`: start from `FHE.asEuint32(0)`
uninitialized, take the first data point as the seed, fold the rest with
`FHE.add` left to right; an empty list yields the encrypted zero. -/
def computeSum (dataPoints : List Handle) : Handle :=
  match dataPoints with
  | [] => Handle.encZero
  | p :: rest => rest.foldl Handle.add p

/-- requestResearchCalculation: modifiers onlyProvider, whenNotPaused,
respectDecryptionCooldown, then the batch must have at least one recorded
submission (the batch-open flag is not consulted). The caller's stored
handles are folded into one sum, its hash is recorded together with the
batch id under the engine-assigned fresh `requestId`. -/
def requestResearchCalculation (s : GMState) (caller now batchId requestId : Nat) :
    Except Err GMState :=
  if s.isProvider caller = false then .error .NotProvider
  else if s.paused = true then .error .Paused
  else if now < s.lastDecryptionRequestTime caller + s.cooldownSeconds then .error .CooldownActive
  else if s.batchSubmissionCount batchId = 0 then .error .EmptyBatch
  else
    let encryptedSum := computeSum (s.batchGeneticData batchId caller)
    let stateHash := hashCiphertexts [toBytes32 encryptedSum]
    .ok { s with
      lastDecryptionRequestTime := fun a => if a = caller then now else s.lastDecryptionRequestTime a
      decryptionContexts := fun r =>
        if r = requestId then { batchId := batchId, stateHash := stateHash, processed := false }
        else s.decryptionContexts r }

/-- The contract's `_reconstructAndHashCleartextsForCallback`: recomputes
the aggregate for the hardcoded `address dataProvider = owner` (the
source's own comments flag this placeholder as wrong — it should be the
provider who called `requestResearchCalculation`) and hashes it the same
way as at request time. -/
def reconstructAndHashForCallback (s : GMState) (batchId : Nat) : B32 :=
  let dataProvider := s.owner
  let reconstructedSum := computeSum (s.batchGeneticData batchId dataProvider)
  hashCiphertexts [toBytes32 reconstructedSum]

/-- myCallback: a `public` function with no caller restriction (the
`caller` argument is deliberately unused, mirroring the source). Checks,
in order: the processed flag (replay), the recomputed state hash against
the stored one, and the engine's proof verification; only then decodes the
cleartext, marks the request processed and returns the decoded result
(the `DecryptionCompleted` payload). -/
def myCallback (env : Env) (s : GMState) (caller requestId cleartexts proof : Nat) :
    Except Err (GMState × Nat) :=
  if (s.decryptionContexts requestId).processed = true then .error .ReplayAttempt
  else
    let ctx := s.decryptionContexts requestId
    let currentHash := reconstructAndHashForCallback s ctx.batchId
    if currentHash ≠ ctx.stateHash then .error .StateMismatch
    else if env.checkSig requestId cleartexts proof = false then .error .InvalidProof
    else
      let result := env.decode cleartexts
      .ok ({ s with decryptionContexts := fun r =>
              if r = requestId then { ctx with processed := true }
              else s.decryptionContexts r }, result)

/-- Extract the post-state of a call, falling back to the pre-state on a
revert (used to build concrete execution traces). -/
def okOr (e : Except Err GMState) (d : GMState) : GMState :=
  match e with
  | .ok s => s
  | .error _ => d

/-- A concrete engine environment for traces: every external handle is a
valid initialized ciphertext, every proof verifies, and the cleartext
payload decodes to itself. -/
def cEnv : Env where
  inited := fun _ => true
  checkSig := fun _ _ _ => true
  decode := fun c => c

/-- Trace for the cross-provider scenario: deployer 0, provider 4 added. -/
def c1s1 : GMState := okOr (addProvider (initialState 0) 0 4) (initialState 0)

/-- Batch 1 opened by the owner. -/
def c1s2 : GMState := okOr (openBatch c1s1 0) c1s1

/-- Provider 4 submits the single handle `input 0` into batch 1 at t=100. -/
def c1s3 : GMState := okOr (submitEncryptedGeneticData cEnv c1s2 4 100 1 [Handle.input 0]) c1s2

/-- Provider 4 requests the research calculation at t=200; the engine
assigns requestId 1. -/
def c1s4 : GMState := okOr (requestResearchCalculation c1s3 4 200 1 1) c1s3

/-- Trace for the owner-as-requester scenario: batch 1 opened from a fresh
deployment by deployer 0. -/
def sOpen1 : GMState := okOr (openBatch (initialState 0) 0) (initialState 0)

/-- The owner (also a provider) submits `input 0` into batch 1 at t=100. -/
def sSubmitted : GMState := okOr (submitEncryptedGeneticData cEnv sOpen1 0 100 1 [Handle.input 0]) sOpen1

/-- The owner requests the research calculation at t=200, requestId 1. -/
def sRequested : GMState := okOr (requestResearchCalculation sSubmitted 0 200 1 1) sSubmitted

/-- State after the first successful decryption callback for requestId 1. -/
def sCompleted : GMState :=
  match myCallback cEnv sRequested 3 1 7 9 with
  | .ok (s, _) => s
  | .error _ => sRequested

/-- Trace for the closed-batch scenario: after `sSubmitted`, the owner
closes batch 1 again. -/
def sClosed1 : GMState := okOr (closeBatch sSubmitted 0 1) sSubmitted

/-- C1: at the failing input — owner 0, authorized provider 4, batch 1
open, provider 4 submitted `[input 0]` at t=100 and called
requestResearchCalculation at t=200 (requestId 1), nothing overwritten in
between — the recorded fingerprint does equal the hash of provider 4's own
(unchanged) aggregate, yet the callback rejects with StateMismatch,
because `_reconstructAndHashCleartextsForCallback` recomputes the
aggregate for the hardcoded owner instead of the requesting provider. -/
theorem C1_failing_input_eval :
    (c1s4.decryptionContexts 1).stateHash =
        hashCiphertexts [toBytes32 (computeSum (c1s4.batchGeneticData 1 4))] ∧
    reconstructAndHashForCallback c1s4 1 =
        hashCiphertexts [toBytes32 (computeSum (c1s4.batchGeneticData 1 c1s4.owner))] ∧
    c1s4.batchGeneticData 1 c1s4.owner = [] ∧
    c1s4.batchGeneticData 1 4 = [Handle.input 0] ∧
    myCallback cEnv c1s4 4 1 7 9 = .error .StateMismatch :=
  ⟨rfl, rfl, rfl, rfl, rfl⟩

/-- C2 counterexample: invoking the callback on a fresh deployment with a
requestId (1) for which no decryption request was ever created rejects
with the state-mismatch error, not the replay error the claim names: the
code checks only the `processed` flag, which is false on the default slot,
and then fails the hash comparison against the default zero word. -/
theorem C2_counterexample :
    myCallback cEnv (initialState 0) 3 1 0 0 = .error .StateMismatch ∧
    Err.StateMismatch ≠ Err.ReplayAttempt :=
  ⟨rfl, by decide⟩

/-- C2 amended: a callback for a requestId whose slot was never written
(it still holds the default context: batch 0, zero hash, unprocessed) is
rejected with no state change, but with the state-mismatch error rather
than the replay error — the recomputed keccak hash never equals the
default zero word. -/
theorem C2_unknown_request_rejects (env : Env) (s : GMState) (caller rid ct pf : Nat)
    (h : s.decryptionContexts rid =
      { batchId := 0, stateHash := B32.zero, processed := false }) :
    myCallback env s caller rid ct pf = .error .StateMismatch := by
  unfold myCallback
  rw [h]
  simp [reconstructAndHashForCallback, hashCiphertexts]

/-- C2 witness: the amended theorem applied at a concrete unknown
requestId (2) on the state of the owner-as-requester trace. -/
theorem C2_witness :
    myCallback cEnv sRequested 4 2 5 6 = .error .StateMismatch :=
  C2_unknown_request_rejects cEnv sRequested 4 2 5 6 rfl

/-- C3 counterexample: batch 1 is opened, receives one submission, and is
closed; a later requestResearchCalculation by the owner against the closed
batch nevertheless succeeds — the code only requires a non-zero submission
count and never consults the open flag. -/
theorem C3_counterexample :
    sClosed1.isBatchOpen 1 = false ∧
    (∃ s', requestResearchCalculation sClosed1 0 200 1 1 = .ok s') :=
  ⟨rfl, ⟨_, rfl⟩⟩

/-- C3 amended: requestResearchCalculation is admitted independently of
batch openness: it succeeds iff the caller is an authorized provider, the
system is unpaused, the decryption cooldown has elapsed, and the batch has
at least one recorded submission. A never-opened batch necessarily has a
zero submission count (submit requires the open flag) and is rejected with
EmptyBatch, but a closed batch with prior submissions is accepted. -/
theorem C3_request_admission (s : GMState) (caller now batchId rid : Nat) :
    (∃ s', requestResearchCalculation s caller now batchId rid = .ok s') ↔
      (s.isProvider caller = true ∧ s.paused = false ∧
       s.lastDecryptionRequestTime caller + s.cooldownSeconds ≤ now ∧
       s.batchSubmissionCount batchId ≠ 0) := by
  unfold requestResearchCalculation
  split_ifs with h1 h2 h3 h4 <;> simp_all [Nat.not_lt]

/-- C9 counterexample: caller 99 is neither the owner nor a provider (the
contract stores no engine identity at all), yet its callback invocation
with a verifying payload on pending requestId 1 succeeds — the callback
has no caller restriction whatsoever. -/
theorem C9_counterexample :
    sRequested.isProvider 99 = false ∧ sRequested.owner ≠ 99 ∧
    (∃ p, myCallback cEnv sRequested 99 1 7 9 = .ok p) :=
  ⟨rfl, by decide, ⟨_, rfl⟩⟩

/-- C9 amended: the callback's outcome never depends on the caller:
it succeeds, for any caller whatsoever, exactly when the stored context is
unprocessed, the recomputed state hash matches the stored one, and the
engine verifies the proof. Authenticity rests entirely on the proof check,
not on restricting who may invoke the callback. -/
theorem C9_callback_no_caller_gate (env : Env) (s : GMState) (caller rid ct pf : Nat) :
    (∃ p, myCallback env s caller rid ct pf = .ok p) ↔
      ((s.decryptionContexts rid).processed = false ∧
       reconstructAndHashForCallback s (s.decryptionContexts rid).batchId =
         (s.decryptionContexts rid).stateHash ∧
       env.checkSig rid ct pf = true) := by
  unfold myCallback
  by_cases h1 : (s.decryptionContexts rid).processed = true <;>
  by_cases h2 : reconstructAndHashForCallback s (s.decryptionContexts rid).batchId =
      (s.decryptionContexts rid).stateHash <;>
  by_cases h3 : env.checkSig rid ct pf = false <;>
    simp_all

/-- Engine environment in which external handle 0 is a valid initialized
ciphertext but handle 1 is not (exercising the normalization step). -/
def wEnvMix : Env where
  inited := fun n => n == 0
  checkSig := fun _ _ _ => true
  decode := fun c => c

/-- The owner submits a mixed list (one valid, one uninitialized handle)
into batch 1 at t=100, under `wEnvMix`. -/
def sMixSubmitted : GMState :=
  okOr (submitEncryptedGeneticData wEnvMix sOpen1 0 100 1 [Handle.input 0, Handle.input 1]) sOpen1

/-- C5: submitEncryptedGeneticData succeeds iff the caller is an
authorized provider, the system is unpaused, the caller's submission
cooldown has elapsed, the batch is open and the handle list is non-empty;
each failing check raises its own distinct error (checked in modifier
order), and an error is a revert, leaving the state unchanged. -/
theorem C5_submit_success_iff (env : Env) (s : GMState) (caller now batchId : Nat)
    (pts : List Handle) :
    ((∃ s', submitEncryptedGeneticData env s caller now batchId pts = .ok s') ↔
      (s.isProvider caller = true ∧ s.paused = false ∧
       s.lastSubmissionTime caller + s.cooldownSeconds ≤ now ∧
       s.isBatchOpen batchId = true ∧ pts ≠ [])) ∧
    (submitEncryptedGeneticData env s caller now batchId pts = .error .NotProvider ↔
       s.isProvider caller = false) ∧
    (submitEncryptedGeneticData env s caller now batchId pts = .error .Paused ↔
       (s.isProvider caller = true ∧ s.paused = true)) ∧
    (submitEncryptedGeneticData env s caller now batchId pts = .error .CooldownActive ↔
       (s.isProvider caller = true ∧ s.paused = false ∧
        now < s.lastSubmissionTime caller + s.cooldownSeconds)) ∧
    (submitEncryptedGeneticData env s caller now batchId pts = .error .BatchClosed ↔
       (s.isProvider caller = true ∧ s.paused = false ∧
        s.lastSubmissionTime caller + s.cooldownSeconds ≤ now ∧
        s.isBatchOpen batchId = false)) ∧
    (submitEncryptedGeneticData env s caller now batchId pts = .error .EmptyBatch ↔
       (s.isProvider caller = true ∧ s.paused = false ∧
        s.lastSubmissionTime caller + s.cooldownSeconds ≤ now ∧
        s.isBatchOpen batchId = true ∧ pts = [])) := by
  unfold submitEncryptedGeneticData
  split_ifs with h1 h2 h3 h4 h5 <;>
    simp_all [Nat.not_lt, List.length_eq_zero]

/-- C6: after every accepted submit, the stored list for (batch, caller)
is the input list with each handle the engine does not recognize as an
initialized ciphertext replaced by the canonical encrypted zero — same
length, same order, fully replacing whatever was stored before — and the
batch's submission counter is exactly one greater than before, with no
de-duplication for repeated submissions by the same provider. -/
theorem C6_submit_stores_normalized (env : Env) (s : GMState) (caller now batchId : Nat)
    (pts : List Handle) (s₁ : GMState)
    (h : submitEncryptedGeneticData env s caller now batchId pts = .ok s₁) :
    s₁.batchGeneticData batchId caller = pts.map (initIfNeeded env) ∧
    (s₁.batchGeneticData batchId caller).length = pts.length ∧
    (∀ i, (s₁.batchGeneticData batchId caller).get? i =
      (pts.get? i).map (fun v => if isInitialized env v then v else Handle.encZero)) ∧
    s₁.batchSubmissionCount batchId = s.batchSubmissionCount batchId + 1 := by
  simp only [submitEncryptedGeneticData] at h
  split_ifs at h <;>
    first
      | (rw [Except.ok.injEq] at h
         subst h
         refine ⟨by simp, by simp, fun i => ?_, by simp⟩
         simp only [List.get?_eq_getElem?]
         simp
         cases pts[i]? <;> simp [initIfNeeded])
      | simp at h

/-- C6 witness: project the theorem at the concrete mixed submission —
the stored list normalizes the uninitialized handle 1 to the encrypted
zero, and the counter is bumped from 0 to 1. -/
theorem C6_witness :
    sMixSubmitted.batchGeneticData 1 0 =
      [Handle.input 0, Handle.input 1].map (initIfNeeded wEnvMix) ∧
    sMixSubmitted.batchGeneticData 1 0 = [Handle.input 0, Handle.encZero] ∧
    sMixSubmitted.batchSubmissionCount 1 = sOpen1.batchSubmissionCount 1 + 1 :=
  ⟨(C6_submit_stores_normalized wEnvMix sOpen1 0 100 1
      [Handle.input 0, Handle.input 1] sMixSubmitted rfl).1,
   rfl,
   (C6_submit_stores_normalized wEnvMix sOpen1 0 100 1
      [Handle.input 0, Handle.input 1] sMixSubmitted rfl).2.2.2⟩

/-- C7: if a callback invocation for a requestId succeeds, a second
invocation with the same requestId and the same payload fails with the
replay error — a revert, so the ledger after the second call is exactly
the ledger after the first, with the processed flag still true. The result
holds for any pair of callers, since the callback has no caller check. -/
theorem C7_callback_replay (env : Env) (s : GMState) (caller₁ caller₂ rid ct pf : Nat)
    (s₁ : GMState) (r₁ : Nat)
    (h : myCallback env s caller₁ rid ct pf = .ok (s₁, r₁)) :
    myCallback env s₁ caller₂ rid ct pf = .error .ReplayAttempt ∧
    (s₁.decryptionContexts rid).processed = true := by
  simp only [myCallback] at h
  split_ifs at h <;>
    first
      | (rw [Except.ok.injEq, Prod.mk.injEq] at h
         obtain ⟨hs, -⟩ := h
         subst hs
         constructor <;> simp [myCallback])
      | simp at h

/-- C7 witness: the successful completion of requestId 1 in the
owner-as-requester trace, replayed with the identical payload, fails with
the replay error while the processed flag stays true. -/
theorem C7_witness :
    myCallback cEnv sCompleted 5 1 7 9 = .error .ReplayAttempt ∧
    (sCompleted.decryptionContexts 1).processed = true :=
  C7_callback_replay cEnv sRequested 3 5 1 7 9 sCompleted 7 rfl

/-- C8: with the authorization and pause gates passing, a gated call is
rejected with the cooldown error (and, being a revert, mutates nothing)
exactly when now < lastTimestamp + cooldownSeconds — for both the
submission class and the decryption-request class — and at the boundary
now = lastTimestamp + cooldownSeconds a submit against an open batch with
a non-empty list is admitted and succeeds. -/
theorem C8_cooldown_boundary (env : Env) (s : GMState) (caller now batchId rid : Nat)
    (pts : List Handle)
    (hp : s.isProvider caller = true) (hnp : s.paused = false) :
    (submitEncryptedGeneticData env s caller now batchId pts = .error .CooldownActive ↔
       now < s.lastSubmissionTime caller + s.cooldownSeconds) ∧
    (requestResearchCalculation s caller now batchId rid = .error .CooldownActive ↔
       now < s.lastDecryptionRequestTime caller + s.cooldownSeconds) ∧
    (now = s.lastSubmissionTime caller + s.cooldownSeconds →
      s.isBatchOpen batchId = true → pts ≠ [] →
      ∃ s', submitEncryptedGeneticData env s caller now batchId pts = .ok s') := by
  refine ⟨?_, ?_, ?_⟩
  · unfold submitEncryptedGeneticData
    split_ifs <;> simp_all
  · unfold requestResearchCalculation
    split_ifs <;> simp_all
  · intro hb ho hne
    unfold submitEncryptedGeneticData
    split_ifs <;> simp_all [List.length_eq_zero]

/-- C8 witness: with lastSubmissionTime 0 = 100 and cooldown 60, a repeat
submit at t=130 is exactly a cooldown rejection (130 < 160), and the
boundary submit at t=160 succeeds. -/
theorem C8_witness :
    (submitEncryptedGeneticData cEnv sSubmitted 0 130 1 [Handle.input 0] =
        .error .CooldownActive ↔
      130 < sSubmitted.lastSubmissionTime 0 + sSubmitted.cooldownSeconds) ∧
    (∃ s', submitEncryptedGeneticData cEnv sSubmitted 0 160 1 [Handle.input 0] = .ok s') :=
  ⟨(C8_cooldown_boundary cEnv sSubmitted 0 130 1 1 [Handle.input 0] rfl rfl).1,
   (C8_cooldown_boundary cEnv sSubmitted 0 160 1 1 [Handle.input 0] rfl rfl).2.2
     rfl rfl (by decide)⟩

/-- C4 counterexample: a provider's submit on a fresh deployment at t=100
passes the cooldown check (cooldown 60, last timestamp 0) but fails with
BatchClosed; the failure is a revert — there is no post-state — so the
last-submission timestamp is NOT updated to now: the ledger still holds
the pre-call value 0, contradicting the claim that the timestamp update is
coupled to the call's admission rather than its success. (In the source
the assignment even appears only after the batch and emptiness checks.) -/
theorem C4_counterexample :
    ¬ (100 < (initialState 0).lastSubmissionTime 0 + (initialState 0).cooldownSeconds) ∧
    submitEncryptedGeneticData cEnv (initialState 0) 0 100 1 [Handle.input 0] =
      .error .BatchClosed ∧
    (initialState 0).lastSubmissionTime 0 = 0 :=
  ⟨by decide, rfl, rfl⟩

/-- C4 amended: the last-call timestamps are updated (to now) exactly on
calls that fully succeed; a gated call that passes the cooldown check but
fails later (closed batch, empty handle list) reverts with no state
mutation at all, leaving the timestamp unchanged — in this embedding an
error outcome carries no post-state, mirroring the EVM rollback. -/
theorem C4_timestamp_update (env : Env) (s : GMState) (caller now batchId rid : Nat)
    (pts : List Handle) :
    (∀ s₁, submitEncryptedGeneticData env s caller now batchId pts = .ok s₁ →
        s₁.lastSubmissionTime caller = now) ∧
    (∀ s₂, requestResearchCalculation s caller now batchId rid = .ok s₂ →
        s₂.lastDecryptionRequestTime caller = now) := by
  constructor
  · intro s₁ h
    simp only [submitEncryptedGeneticData] at h
    split_ifs at h <;>
      first
        | (rw [Except.ok.injEq] at h; subst h; simp)
        | simp at h
  · intro s₂ h
    simp only [requestResearchCalculation] at h
    split_ifs at h <;>
      first
        | (rw [Except.ok.injEq] at h; subst h; simp)
        | simp at h

/-- C4 witness: the two successful calls of the owner-as-requester trace
set the submission timestamp to 100 and the decryption-request timestamp
to 200. -/
theorem C4_witness :
    sSubmitted.lastSubmissionTime 0 = 100 ∧
    sRequested.lastDecryptionRequestTime 0 = 200 :=
  ⟨(C4_timestamp_update cEnv sOpen1 0 100 1 1 [Handle.input 0]).1 sSubmitted rfl,
   (C4_timestamp_update cEnv sSubmitted 0 200 1 1 [Handle.input 0]).2 sRequested rfl⟩

end GeneMarketFHE
